import Mathlib

/-!
# Verification of the multimodal emotion fusion pipeline (Virtual-Avatar)

Shallow embedding of the client-side capture schedulers, the availability-gate
client, the pull-path fusion consumer and the actuator emotion client of the
Virtual-Avatar repository, together with proofs settling the specification
claims about them.

Conventions of the embedding:
* JavaScript numbers are modelled as `ℚ` (exact rational arithmetic; the
  programs only perform `+ - * / min max` comparisons on them), millisecond
  counters as `ℕ` or `ℤ`.
* Fallible network interactions are modelled by explicit result types
  (`Option`, dedicated inductives), one constructor per outcome the code
  distinguishes.
* Module-level mutable state (backoff refs, the VAD state object) is modelled
  by explicit state records threaded through step functions.
-/

namespace VirtualAvatar

/-! ## Availability gate client (`src/lib/pepperState.jsx`)

`isPepperAvailable` / `isPepperAvailableForAudio` perform a GET on
`/pepper/status` and inspect `data.proce`.  The observable outcomes of that
request are: the fetch throws (network error), the response is not ok, the
body fails to parse as JSON, the JSON has no `proce` field, or it has one. -/

/-- Outcome of the `/pepper/status` request as the client code distinguishes
them. `body = none` models a response whose body is not JSON (`response.json()`
throws); `body = some none` models JSON without a `proce` field; `body = some
(some p)` models JSON with `proce = p`. -/
inductive PepperStatusResult where
  | networkError : PepperStatusResult
  | response (ok : Bool) (body : Option (Option ℤ)) : PepperStatusResult
deriving DecidableEq

/-- Translation of `isPepperAvailable` (pepperState.jsx, lines 17–37): any
thrown error and any non-ok response yield `true` ("default to available if
check fails"); otherwise the result is `data.proce === 1`. A thrown
`response.json()` is caught by the same `catch` and yields `true`. -/
def isPepperAvailable : PepperStatusResult → Bool
  | .networkError => true
  | .response ok body =>
    if ok = false then true
    else
      match body with
      | none => true
      | some proceField => decide (proceField = some 1)

/-- Translation of `isPepperAvailableForAudio` (pepperState.jsx, lines 44–64);
the function body is a verbatim duplicate of `isPepperAvailable`. -/
def isPepperAvailableForAudio : PepperStatusResult → Bool
  | .networkError => true
  | .response ok body =>
    if ok = false then true
    else
      match body with
      | none => true
      | some proceField => decide (proceField = some 1)

/-! ## Capture-scheduler gate branches (`useFaceYolo.jsx`, `useSpeechEmotion.jsx`) -/

/-- What the visual capture scheduler does with the gate answer at the top of
`captureWindow` (useFaceYolo.jsx, lines 211–219): proceed with the 60-frame
window, or skip the cycle and re-schedule `captureWindow` after 2000 ms. -/
inductive FaceCycleAction where
  | proceed : FaceCycleAction
  | skipRetry (delayMs : ℕ) : FaceCycleAction
deriving DecidableEq

/-- Translation of the availability branch of `captureWindow`: if Pepper is
not available the cycle is skipped and retried via
`setTimeout(captureWindow, 2000)`. -/
def faceGateBranch (pepperIsAvailable : Bool) : FaceCycleAction :=
  if pepperIsAvailable then .proceed else .skipRetry 2000

/-! ### Audio failure backoff (`useSpeechEmotion.jsx`) -/

/-- `BACKOFF_BASE = 2000` (ms). -/
def BACKOFF_BASE : ℕ := 2000

/-- `BACKOFF_MAX = 25000` (ms). -/
def BACKOFF_MAX : ℕ := 25000

/-- `MAX_CONSEC_FAILS = 3`. -/
def MAX_CONSEC_FAILS : ℕ := 3

/-- The two refs `failsRef` and `backoffRef` of `useSpeechEmotion`. -/
structure BackoffState where
  fails : ℕ
  backoff : ℕ
deriving DecidableEq

/-- Translation of `resetBackoff` (lines 279–282). -/
def resetBackoff (_s : BackoffState) : BackoffState :=
  { fails := 0, backoff := BACKOFF_BASE }

/-- Translation of `bumpBackoff` (lines 284–288): increment the failure count,
double the backoff capped at `BACKOFF_MAX`, and return the new backoff as the
delay to schedule. -/
def bumpBackoff (s : BackoffState) : BackoffState :=
  { fails := s.fails + 1, backoff := min BACKOFF_MAX (s.backoff * 2) }

/-- One failed cycle of the audio loop: the failure path calls `bumpBackoff`
and schedules the returned delay; afterwards the `finally` block (lines
470–475) resets the backoff when `failsRef.current >= MAX_CONSEC_FAILS`.
Returns the scheduled delay together with the state left for the next cycle. -/
def failStep (s : BackoffState) : ℕ × BackoffState :=
  let s1 := bumpBackoff s
  (s1.backoff, if MAX_CONSEC_FAILS ≤ s1.fails then resetBackoff s1 else s1)

/-- A successful cycle calls `resetBackoff` (line 449). -/
def successStep (s : BackoffState) : BackoffState := resetBackoff s

/-- Initial ref values: `failsRef = 0`, `backoffRef = BACKOFF_BASE`. -/
def initBackoff : BackoffState := { fails := 0, backoff := BACKOFF_BASE }

/-- The sequence of delays scheduled by `n` consecutive failed cycles starting
from state `s`. -/
def failDelays : ℕ → BackoffState → List ℕ
  | 0, _ => []
  | n + 1, s =>
    let p := failStep s
    p.1 :: failDelays n p.2

/-! ### Audio busy branch -/

/-- Observable outcome of the audio loop's Pepper-busy branch
(useSpeechEmotion.jsx, lines 317–331). -/
structure AudioBusyOutcome where
  capturedAudio : Bool
  classified : Bool
  emitted : Option (String × ℚ)
  nextDelayMs : ℚ
  backoffAfter : BackoffState
deriving DecidableEq

/-- Translation of the availability branch of the audio loop: when Pepper is
busy the cycle performs no recording and no classification, emits the
`pushNeutral("pepper_busy")` fallback (`label "neutral"`, `score 0.5`), calls
`resetBackoff`, and re-schedules after `intervalMs * 1.5`. When Pepper is
available the branch is not taken (`none`). -/
def audioGateBranch (pepperIsAvailable : Bool) (intervalMs : ℚ) (s : BackoffState) :
    Option AudioBusyOutcome :=
  if pepperIsAvailable then none
  else
    some { capturedAudio := false
           classified := false
           emitted := some ("neutral", 1/2)
           nextDelayMs := intervalMs * (3/2)
           backoffAfter := resetBackoff s }

/-! ## Emotion normalization (`src/lib/pepperEmotionClient.jsx`) -/

/-- Model of JavaScript `String.prototype.toLowerCase` restricted to its
ASCII action, which covers every comparison `normalizeEmotion` performs. -/
def jsLowerChar (c : Char) : Char :=
  if 'A' ≤ c ∧ c ≤ 'Z' then Char.ofNat (c.toNat + 32) else c

/-- Lower-case an entire string, character by character. -/
def jsToLower (s : String) : String := ⟨s.data.map jsLowerChar⟩

/-- The common JavaScript whitespace characters stripped by
`String.prototype.trim`. -/
def jsWhitespace (c : Char) : Bool :=
  c = ' ' ∨ c = '\t' ∨ c = '\n' ∨ c = '\r'

/-- Model of JavaScript `String.prototype.trim`: drop whitespace from both
ends. -/
def jsTrim (s : String) : String :=
  ⟨(s.data.dropWhile jsWhitespace).reverse.dropWhile jsWhitespace |>.reverse⟩

/-- Translation of `normalizeEmotion` (lines 26–37). A `null`/`undefined`
label is modelled by the empty string, which is exactly what the JS falsiness
test `if (!label)` also accepts. -/
def normalizeEmotion (label : String) : String :=
  if label = "" then "neutral"
  else
    let s := jsTrim (jsToLower label)
    if s ∈ ["joy", "happy"] then "happy"
    else if s ∈ ["anger", "angry"] then "anger"
    else if s ∈ ["sad", "sadness"] then "sad"
    else if s ∈ ["surprise", "surprised"] then "surprise"
    else if s ∈ ["disgust", "disgusted"] then "disgust"
    else if s ∈ ["fear", "scared", "afraid"] then "fear"
    else if s ∈ ["neutral", "none", "..."] then "neutral"
    else "neutral"

/-- The set of labels the specification declares as the closed EmotionLabel
enumeration. -/
def specEmotionLabels : List String :=
  ["happy", "sad", "angry", "surprise", "fear", "disgust", "neutral"]

/-- The set of labels `normalizeEmotion` can actually return. -/
def codeEmotionLabels : List String :=
  ["happy", "anger", "sad", "surprise", "disgust", "fear", "neutral"]

/-! ## Visual window aggregation (`useFaceYolo.jsx`, `aggregateFrames`) -/

/-- A per-frame classification as consumed by `aggregateFrames`:
`{label, score}`. -/
structure Frame where
  label : String
  score : ℚ
deriving DecidableEq

/-- `frame.label || "neutral"`: an absent/empty label is coerced to
`"neutral"` by JS falsiness. -/
def effLabel (f : Frame) : String := if f.label = "" then "neutral" else f.label

/-- Number of frames voting for label `l` (the value `votes[l]` accumulates). -/
def countVotes (frames : List Frame) (l : String) : ℕ :=
  (frames.filter (fun f => effLabel f = l)).length

/-- The scores collected into `scoresByEmotion[l]`, in frame order. -/
def scoresFor (frames : List Frame) (l : String) : List ℚ :=
  (frames.filter (fun f => effLabel f = l)).map Frame.score

/-- The distinct effective labels in first-occurrence order: the key order in
which `Object.entries(votes)` iterates for these non-numeric string keys. -/
def distinctLabels (frames : List Frame) : List String :=
  frames.foldl (fun acc f => if effLabel f ∈ acc then acc else acc ++ [effLabel f]) []

/-- Translation of the winner scan of `aggregateFrames` (lines 44–53):
starting from `("neutral", 0)`, replace the current winner whenever a label
has strictly more votes. -/
def pickWinner (frames : List Frame) : String × ℕ :=
  (distinctLabels frames).foldl
    (fun wm l => if wm.2 < countVotes frames l then (l, countVotes frames l) else wm)
    ("neutral", 0)

/-- The aggregated result record returned by `aggregateFrames`. -/
structure AggResult where
  label : String
  score : ℚ
  confidence : ℚ
  frameCount : ℕ
  votes : ℕ
  consensus : ℚ
deriving DecidableEq

/-- Translation of `aggregateFrames` (useFaceYolo.jsx, lines 22–71). The empty
input returns the fixed neutral record; otherwise the majority label wins, its
mean score is boosted by `0.7 + 0.3 * consensusRatio`, and the result carries
both `score` and `confidence` equal to that value. The JS field
`consensusRatio` is called `consensus` here. -/
def aggregateFrames (frames : List Frame) : AggResult :=
  if frames.isEmpty then
    { label := "neutral", score := 0, confidence := 0, frameCount := 0
      votes := 0, consensus := 0 }
  else
    let winner := pickWinner frames
    let winnerScores := if (scoresFor frames winner.1).isEmpty then [0] else scoresFor frames winner.1
    let avgScore := winnerScores.sum / winnerScores.length
    let consensus := (winner.2 : ℚ) / frames.length
    let confidence := avgScore * (7/10 + 3/10 * consensus)
    { label := winner.1, score := confidence, confidence := confidence
      frameCount := frames.length, votes := winner.2, consensus := consensus }

/-- The `setState` payload of `captureWindow`'s FASE 4 (useFaceYolo.jsx, lines
280–303), keeping the fields relevant to the emitted classification. -/
structure FaceHookState where
  ready : Bool
  error : Option String
  label : String
  score : ℚ
  frameCount : ℕ
deriving DecidableEq

/-- Translation of the aggregation-and-publish step of `captureWindow`: after
the analysis batches produce `allResults`, the code unconditionally aggregates
and calls `setState` (there is no zero-frame guard), so the emitted update is
always `some _`; `none` would model a cycle that publishes nothing. -/
def windowPublish (allResults : List Frame) : Option FaceHookState :=
  let agg := aggregateFrames allResults
  some { ready := true, error := none, label := agg.label
         score := agg.confidence, frameCount := agg.frameCount }

/-! ## Adaptive VAD threshold (`useSpeechEmotion.jsx`, `precheckLoudness`) -/

/-- `SILENCE_RMS_MIN = 0.002`. -/
def SILENCE_RMS_MIN : ℚ := 2/1000

/-- `SILENCE_RMS_MAX = 0.015`. -/
def SILENCE_RMS_MAX : ℚ := 15/1000

/-- The mutable VAD values `precheckLoudness` reads and writes:
`vadState.recentRMS`, `vadState.ambientNoiseLevel` and the module variable
`SILENCE_RMS_ADAPTIVE`. -/
structure VadState where
  recentRMS : List ℚ
  ambientNoiseLevel : ℚ
  adaptive : ℚ
deriving DecidableEq

/-- Translation of the rolling-window push (lines 117–121): append the new
reading, then `shift()` the oldest when the window exceeds 10 entries. -/
def pushRolling (hist : List ℚ) (r : ℚ) : List ℚ :=
  let h := hist ++ [r]
  if 10 < h.length then h.drop 1 else h

/-- Translation of the ambient-noise estimate (lines 123–125): sort the window
ascending (`.sort((a, b) => a - b)`, modelled by `List.insertionSort`), take
the first three readings and divide their sum by 3 (the code divides by 3 even
when fewer than three readings exist). -/
def ambientEstimate (hist : List ℚ) : ℚ :=
  ((hist.insertionSort (· ≤ ·)).take 3).sum / 3

/-- Translation of the threshold update of `precheckLoudness` (lines 117–132):
push the probe's average RMS into the rolling window, estimate ambient noise,
and set `SILENCE_RMS_ADAPTIVE = min(SILENCE_RMS_MAX, max(SILENCE_RMS_MIN,
ambient * 1.5))`. -/
def probeStep (st : VadState) (r : ℚ) : VadState :=
  let hist := pushRolling st.recentRMS r
  let ambient := ambientEstimate hist
  let threshold := max SILENCE_RMS_MIN (ambient * (3/2))
  { recentRMS := hist, ambientNoiseLevel := ambient
    adaptive := min SILENCE_RMS_MAX threshold }

/-- Specification-side ambient noise: the mean of the three lowest readings,
written with `List.mergeSort` so it is independent of the sort the code
translation uses. -/
def meanOfThreeLowest (hist : List ℚ) : ℚ :=
  ((hist.mergeSort (· ≤ ·)).take 3).sum / 3

/-! ## Pull-path fusion consumer (`useEmotionFusion.jsx`, `performFusion`) -/

/-- The `/fusion/buffer-stats` payload fields `performFusion` reads. -/
structure BufferStats where
  has_both : Bool
  face_count : ℕ
  audio_count : ℕ
  face_latest_age_ms : ℚ
  audio_latest_age_ms : ℚ
deriving DecidableEq

/-- `stats.xxx_latest_age_ms || Infinity` followed by `age > 10000`: an age is
treated as stale when the field is falsy (0 is coerced to `Infinity`) or
exceeds 10000 ms. -/
def ageStale (a : ℚ) : Bool := decide (a = 0) || decide (10000 < a)

/-- The externally observable outcome of one `performFusion` attempt: whether
the `/fusion/buffer-stats` and `/fusion/auto-fuse` requests were issued,
whether the error state was set on the skip path, and the updated
`lastDetectionTimeRef.current.lastCheck`. -/
structure FusionOutcome where
  statsRequested : Bool
  fuseRequested : Bool
  errorSet : Bool
  newLastCheck : ℤ
deriving DecidableEq

/-- Translation of the gating portion of `performFusion` (useEmotionFusion.jsx,
lines 47–112). Parameters: the availability answer (PASO 0), the current time
and the stored `lastCheck` (the debounce of PASO 1), and the buffer-stats
response (`none` models a non-ok `statsResponse`, in which case the code falls
through to the fuse request without any buffer check and without updating
`lastCheck`). All skip paths return without touching the error state. -/
def performFusion (gateAvailable : Bool) (now lastCheck : ℤ)
    (stats : Option BufferStats) : FusionOutcome :=
  if gateAvailable = false then
    { statsRequested := false, fuseRequested := false, errorSet := false
      newLastCheck := lastCheck }
  else if now - lastCheck < 2000 then
    { statsRequested := false, fuseRequested := false, errorSet := false
      newLastCheck := lastCheck }
  else
    match stats with
    | some s =>
      if s.has_both = false then
        { statsRequested := true, fuseRequested := false, errorSet := false
          newLastCheck := now }
      else if ageStale s.face_latest_age_ms || ageStale s.audio_latest_age_ms then
        { statsRequested := true, fuseRequested := false, errorSet := false
          newLastCheck := now }
      else
        { statsRequested := true, fuseRequested := true, errorSet := false
          newLastCheck := now }
    | none =>
      { statsRequested := true, fuseRequested := true, errorSet := false
        newLastCheck := lastCheck }

/-! ## Fusion engine weights (server side)

The server implementing `/fusion/auto-fuse` is not part of the repository
sources here; the definitions below are modelled from the specification's
description of the WeightedFusion strategy. -/

/-- Clamp a rational to `[lo, hi]`. -/
def clampQ (x lo hi : ℚ) : ℚ := min hi (max lo x)

/-- Clamp to `[0, 1]`. -/
def clamp01 (x : ℚ) : ℚ := min 1 (max 0 x)

/-- Modelled from the spec: the Fusion Engine's dynamic weight computation for
conflicting labels (the server-side `/fusion/auto-fuse` implementation is not
under the available sources). Base weights face = 0.45, speech = 0.55; shift
`0.5 × (confidence gap)` toward the more confident modality; clamp each weight
to `[0.30, 0.70]`; renormalize the pair to sum to 1. -/
def dynamicWeights (faceConf speechConf : ℚ) : ℚ × ℚ :=
  let shift := (faceConf - speechConf) * (1/2)
  let fw := clampQ (45/100 + shift) (30/100) (70/100)
  let sw := clampQ (55/100 - shift) (30/100) (70/100)
  let total := fw + sw
  (fw / total, sw / total)

/-- Modelled from the spec: the WeightedFusion strategy for two present
modalities with differing labels (server-side implementation not under the
available sources). The fused label is the modality with the higher weighted
confidence (ties prefer the face modality), and the fused confidence is that
weighted confidence times the 0.90 conflict penalty, clamped to `[0, 1]`. -/
def weightedFusion (faceLabel : String) (faceConf : ℚ)
    (speechLabel : String) (speechConf : ℚ) : String × ℚ :=
  let w := dynamicWeights faceConf speechConf
  let wcF := w.1 * faceConf
  let wcS := w.2 * speechConf
  if wcS ≤ wcF then (faceLabel, clamp01 (wcF * (9/10)))
  else (speechLabel, clamp01 (wcS * (9/10)))

/-! ## Theorems -/

/-! ### Helper lemmas about the window aggregation fold -/

/-- The running maximum of the winner scan never decreases. -/
theorem winnerFold_le (frames : List Frame) :
    ∀ (L : List String) (wm : String × ℕ),
      wm.2 ≤ (L.foldl (fun wm l => if wm.2 < countVotes frames l then (l, countVotes frames l) else wm) wm).2 := by
  intro L
  induction L with
  | nil => intro wm; exact le_refl _
  | cons l L ih =>
    intro wm
    refine le_trans ?_ (ih _)
    dsimp only
    by_cases h : wm.2 < countVotes frames l
    · rw [if_pos h]; exact le_of_lt h
    · rw [if_neg h]

/-- Every label scanned by the winner fold ends up with a vote count at most
the final running maximum. -/
theorem winnerFold_mem (frames : List Frame) :
    ∀ (L : List String) (wm : String × ℕ) (l : String), l ∈ L →
      countVotes frames l ≤ (L.foldl (fun wm l => if wm.2 < countVotes frames l then (l, countVotes frames l) else wm) wm).2 := by
  intro L
  induction L with
  | nil => intro wm l hl; cases hl
  | cons a L ih =>
    intro wm l hl
    rcases List.mem_cons.mp hl with h | h
    · subst h
      refine le_trans ?_ (winnerFold_le frames L _)
      dsimp only
      by_cases h : wm.2 < countVotes frames l
      · rw [if_pos h]
      · rw [if_neg h]; exact le_of_not_lt h
    · exact ih _ l h

/-- The winner fold either returns a pair whose count field is the vote count
of its label field, or it returns the initial pair untouched. -/
theorem winnerFold_fix (frames : List Frame) :
    ∀ (L : List String) (wm : String × ℕ),
      (L.foldl (fun wm l => if wm.2 < countVotes frames l then (l, countVotes frames l) else wm) wm).2 =
        countVotes frames (L.foldl (fun wm l => if wm.2 < countVotes frames l then (l, countVotes frames l) else wm) wm).1 ∨
      (L.foldl (fun wm l => if wm.2 < countVotes frames l then (l, countVotes frames l) else wm) wm) = wm := by
  intro L
  induction L with
  | nil => intro wm; exact Or.inr rfl
  | cons a L ih =>
    intro wm
    rw [List.foldl_cons]
    rcases ih (if wm.2 < countVotes frames a then (a, countVotes frames a) else wm) with h | h
    · exact Or.inl h
    · rw [h]
      by_cases ha : wm.2 < countVotes frames a
      · rw [if_pos ha]; exact Or.inl rfl
      · rw [if_neg ha]; exact Or.inr rfl

/-- Membership in the accumulator is preserved by the distinct-label fold. -/
theorem mem_distinctLabels_preserved (x : String) :
    ∀ (L : List Frame) (acc : List String), x ∈ acc →
      x ∈ L.foldl (fun acc f => if effLabel f ∈ acc then acc else acc ++ [effLabel f]) acc := by
  intro L
  induction L with
  | nil => intro acc h; exact h
  | cons f L ih =>
    intro acc h
    refine ih _ ?_
    dsimp only
    by_cases hf : effLabel f ∈ acc
    · rwa [if_pos hf]
    · rw [if_neg hf]
      exact List.mem_append_left _ h

/-- Every frame's effective label appears among the distinct labels. -/
theorem effLabel_mem_distinctLabels (frames : List Frame) (f : Frame) (hf : f ∈ frames) :
    effLabel f ∈ distinctLabels frames := by
  unfold distinctLabels
  suffices h : ∀ (L : List Frame) (acc : List String), f ∈ L →
      effLabel f ∈ L.foldl (fun acc g => if effLabel g ∈ acc then acc else acc ++ [effLabel g]) acc by
    exact h frames [] hf
  intro L
  induction L with
  | nil => intro acc h; cases h
  | cons g L ih =>
    intro acc h
    rcases List.mem_cons.mp h with h | h
    · subst h
      refine mem_distinctLabels_preserved _ L _ ?_
      dsimp only
      by_cases hg : effLabel f ∈ acc
      · rwa [if_pos hg]
      · rw [if_neg hg]
        exact List.mem_append_right _ (by simp)
    · exact ih _ h

/-- A label with at least one vote appears among the distinct labels. -/
theorem mem_distinct_of_countVotes_pos (frames : List Frame) (l : String)
    (h : 0 < countVotes frames l) : l ∈ distinctLabels frames := by
  unfold countVotes at h
  rcases List.exists_mem_of_length_pos h with ⟨f, hf⟩
  rcases List.mem_filter.mp hf with ⟨hfr, hl⟩
  have : effLabel f = l := by simpa using hl
  rw [← this]
  exact effLabel_mem_distinctLabels frames f hfr

/-- The winner of the scan receives at least as many votes as any label. -/
theorem pickWinner_max (frames : List Frame) (l : String) :
    countVotes frames l ≤ countVotes frames (pickWinner frames).1 := by
  by_cases hz : 0 < countVotes frames l
  · have hmem := mem_distinct_of_countVotes_pos frames l hz
    have h1 := winnerFold_mem frames (distinctLabels frames) ("neutral", 0) l hmem
    rcases winnerFold_fix frames (distinctLabels frames) ("neutral", 0) with h2 | h2
    · unfold pickWinner
      rw [← h2]
      exact h1
    · exfalso
      have : countVotes frames l ≤ (("neutral", 0) : String × ℕ).2 := by
        unfold pickWinner at *
        rw [h2] at h1
        exact h1
      omega
  · omega

/-- The count field of the scan result is the winner's actual vote count. -/
theorem pickWinner_votes (frames : List Frame) :
    (pickWinner frames).2 = countVotes frames (pickWinner frames).1 := by
  rcases winnerFold_fix frames (distinctLabels frames) ("neutral", 0) with h | h
  · exact h
  · unfold pickWinner
    rw [h]
    by_contra hne
    dsimp only at hne
    have hpos : 0 < countVotes frames "neutral" := by omega
    have hmem := mem_distinct_of_countVotes_pos frames "neutral" hpos
    have h1 := winnerFold_mem frames (distinctLabels frames) ("neutral", 0) "neutral" hmem
    rw [h] at h1
    omega

/-- On a non-empty window the winner has at least one vote. -/
theorem pickWinner_pos (frames : List Frame) (hne : frames ≠ []) :
    0 < countVotes frames (pickWinner frames).1 := by
  rcases List.exists_mem_of_ne_nil frames hne with ⟨f, hf⟩
  have h1 : 0 < countVotes frames (effLabel f) := by
    unfold countVotes
    apply List.length_pos.mpr
    intro hemp
    have : f ∈ List.filter (fun g => decide (effLabel g = effLabel f)) frames :=
      List.mem_filter.mpr ⟨hf, by simp⟩
    rw [hemp] at this
    cases this
  exact lt_of_lt_of_le h1 (pickWinner_max frames (effLabel f))

/-- The winner's score list has exactly one entry per vote. -/
theorem scoresFor_length (frames : List Frame) (l : String) :
    (scoresFor frames l).length = countVotes frames l := by
  unfold scoresFor countVotes
  exact List.length_map _ _

/-- Closed form of `aggregateFrames` on a non-empty window. -/
theorem aggregateFrames_spec (frames : List Frame) (hne : frames ≠ []) :
    aggregateFrames frames =
      { label := (pickWinner frames).1
        score := (scoresFor frames (pickWinner frames).1).sum /
            ((countVotes frames (pickWinner frames).1 : ℚ)) *
            (7/10 + 3/10 * ((countVotes frames (pickWinner frames).1 : ℚ) / frames.length))
        confidence := (scoresFor frames (pickWinner frames).1).sum /
            ((countVotes frames (pickWinner frames).1 : ℚ)) *
            (7/10 + 3/10 * ((countVotes frames (pickWinner frames).1 : ℚ) / frames.length))
        frameCount := frames.length
        votes := countVotes frames (pickWinner frames).1
        consensus := (countVotes frames (pickWinner frames).1 : ℚ) / frames.length } := by
  have hv := pickWinner_votes frames
  have hpos := pickWinner_pos frames hne
  have hlen := scoresFor_length frames (pickWinner frames).1
  have hsne : (scoresFor frames (pickWinner frames).1).isEmpty = false := by
    rw [List.isEmpty_eq_false]
    intro h
    rw [h] at hlen
    simp at hlen
    omega
  unfold aggregateFrames
  rw [if_neg (by simp [hne])]
  dsimp only
  rw [hsne]
  simp only [Bool.false_eq_true, if_false, hlen, hv]

/-- Sum bounds for a list of scores lying in the unit interval. -/
theorem sum_bounds (l : List ℚ) (h : ∀ x ∈ l, 0 ≤ x ∧ x ≤ 1) :
    0 ≤ l.sum ∧ l.sum ≤ l.length := by
  constructor
  · exact List.sum_nonneg (fun x hx => (h x hx).1)
  · calc l.sum ≤ l.length • (1 : ℚ) := List.sum_le_card_nsmul l 1 (fun x hx => (h x hx).2)
    _ = l.length := by simp

/-- No label can outvote the window size. -/
theorem countVotes_le_length (frames : List Frame) (l : String) :
    countVotes frames l ≤ frames.length :=
  List.length_filter_le _ _

/-! ### Claim theorems -/

/-- C1: on every non-empty list of per-frame classifications, the aggregated
label receives at least as many votes as any label; the aggregated confidence
is the mean score of the frames that voted for the winner times
`0.7 + 0.3 × votes_for_winner / total_frames`; and when every frame score lies
in `[0, 1]` the aggregated confidence also lies in `[0, 1]`. -/
theorem C1_aggregate (frames : List Frame) (hne : frames ≠ []) :
    (∀ l : String, countVotes frames l ≤ countVotes frames (aggregateFrames frames).label) ∧
    (aggregateFrames frames).confidence =
      (scoresFor frames (aggregateFrames frames).label).sum /
        (countVotes frames (aggregateFrames frames).label : ℚ) *
        (7/10 + 3/10 * ((countVotes frames (aggregateFrames frames).label : ℚ) / frames.length)) ∧
    ((∀ f ∈ frames, 0 ≤ f.score ∧ f.score ≤ 1) →
      0 ≤ (aggregateFrames frames).confidence ∧ (aggregateFrames frames).confidence ≤ 1) := by
  rw [aggregateFrames_spec frames hne]
  dsimp only
  refine ⟨pickWinner_max frames, rfl, ?_⟩
  intro hs
  set w := (pickWinner frames).1 with hw
  have hcpos : 0 < countVotes frames w := pickWinner_pos frames hne
  have hcq : (0 : ℚ) < (countVotes frames w : ℚ) := by exact_mod_cast hcpos
  have hlq : (0 : ℚ) < (frames.length : ℚ) := by
    have : 0 < frames.length := List.length_pos.mpr hne
    exact_mod_cast this
  have hsb : ∀ x ∈ scoresFor frames w, 0 ≤ x ∧ x ≤ 1 := by
    intro x hx
    unfold scoresFor at hx
    rcases List.mem_map.mp hx with ⟨f, hf, hfx⟩
    rcases List.mem_filter.mp hf with ⟨hfr, _⟩
    rw [← hfx]
    exact hs f hfr
  have hsum := sum_bounds (scoresFor frames w) hsb
  have hlen := scoresFor_length frames w
  have havg0 : 0 ≤ (scoresFor frames w).sum / (countVotes frames w : ℚ) :=
    div_nonneg hsum.1 (le_of_lt hcq)
  have havg1 : (scoresFor frames w).sum / (countVotes frames w : ℚ) ≤ 1 := by
    rw [div_le_one hcq]
    calc (scoresFor frames w).sum ≤ ((scoresFor frames w).length : ℚ) := hsum.2
    _ = (countVotes frames w : ℚ) := by exact_mod_cast congrArg Nat.cast hlen
  have hr0 : 0 ≤ (countVotes frames w : ℚ) / (frames.length : ℚ) :=
    div_nonneg (le_of_lt hcq) (le_of_lt hlq)
  have hr1 : (countVotes frames w : ℚ) / (frames.length : ℚ) ≤ 1 := by
    rw [div_le_one hlq]
    exact_mod_cast countVotes_le_length frames w
  constructor
  · apply mul_nonneg havg0
    linarith
  · nlinarith [havg0, havg1, hr0, hr1]

/-- C1 (witness): the aggregated confidence of a concrete three-frame window
(two `happy` votes with scores 1/2 and 3/4, one `sad` vote with score 1/4)
lies in the unit interval. -/
theorem C1_aggregate_witness :
    0 ≤ (aggregateFrames [⟨"happy", 1/2⟩, ⟨"happy", 3/4⟩, ⟨"sad", 1/4⟩]).confidence ∧
    (aggregateFrames [⟨"happy", 1/2⟩, ⟨"happy", 3/4⟩, ⟨"sad", 1/4⟩]).confidence ≤ 1 :=
  (C1_aggregate [⟨"happy", 1/2⟩, ⟨"happy", 3/4⟩, ⟨"sad", 1/4⟩] (by decide)).2.2
    (by intro f hf; fin_cases hf <;> norm_num)

/-- C2: modelled from the spec (the server-side fusion engine is not among
the available sources). With Face = happy(0.9) and Speech = sad(0.6) the
dynamic weights are exactly {0.60, 0.40} and the fused result is `happy` with
confidence 0.486 = 0.54 × 0.90; in general the renormalized weight pair sums
to 1. -/
theorem C2_weighted_fusion :
    dynamicWeights (9/10) (6/10) = (6/10, 4/10) ∧
    weightedFusion "happy" (9/10) "sad" (6/10) = ("happy", 486/1000) ∧
    ∀ fc sc : ℚ, (dynamicWeights fc sc).1 + (dynamicWeights fc sc).2 = 1 := by
  refine ⟨?_, ?_, ?_⟩
  · norm_num [dynamicWeights, clampQ, Prod.mk.injEq]
  · norm_num [weightedFusion, dynamicWeights, clampQ, clamp01, Prod.mk.injEq]
  · intro fc sc
    unfold dynamicWeights clampQ
    dsimp only
    have h1 : (30/100 : ℚ) ≤ min (70/100) (max (30/100) (45/100 + (fc - sc) * (1/2))) :=
      le_min (by norm_num) (le_max_left _ _)
    have h2 : (30/100 : ℚ) ≤ min (70/100) (max (30/100) (55/100 - (fc - sc) * (1/2))) :=
      le_min (by norm_num) (le_max_left _ _)
    rw [div_add_div_same, div_self (ne_of_gt (by linarith))]

/-- C3 (counterexample): the claim that consecutive failures always produce
non-decreasing backoff delays is false on the code. Starting from the initial
refs, four consecutive failed cycles schedule the delays 4000, 8000, 16000 and
then 4000 ms again, because the `finally` block self-heals the backoff once
`MAX_CONSEC_FAILS = 3` consecutive failures accumulate; 16000 followed by 4000
is a strict decrease. -/
theorem C3_backoff_counterexample :
    failDelays 4 initBackoff = [4000, 8000, 16000, 4000] ∧
    ¬ List.Sorted (· ≤ ·) (failDelays 4 initBackoff) := by
  decide

/-- C3 (amended): every scheduled failure delay is at most the 25000 ms cap;
while the consecutive-failure count stays below `MAX_CONSEC_FAILS` the next
failure's delay is at least the current one (non-decreasing); a single success
resets the backoff state to its base; and on reaching `MAX_CONSEC_FAILS`
consecutive failures the state self-heals back to base. -/
theorem C3_backoff_amended (s : BackoffState) :
    (failStep s).1 ≤ BACKOFF_MAX ∧
    (s.fails + 1 < MAX_CONSEC_FAILS → (failStep s).1 ≤ (failStep (failStep s).2).1) ∧
    successStep s = initBackoff ∧
    (MAX_CONSEC_FAILS ≤ s.fails + 1 → (failStep s).2 = initBackoff) := by
  refine ⟨Nat.min_le_left _ _, ?_, rfl, ?_⟩
  · intro h
    simp only [failStep, bumpBackoff, resetBackoff, MAX_CONSEC_FAILS] at h ⊢
    rw [if_neg (by omega)]
    simp only [BACKOFF_MAX]
    omega
  · intro h
    simp only [failStep, bumpBackoff, resetBackoff, MAX_CONSEC_FAILS] at h ⊢
    rw [if_pos (by omega)]
    rfl

/-- C3 (witness): instantiation of the amended backoff theorem at the initial
state, where one failure has delay 4000 and the following failure has delay
8000. -/
theorem C3_backoff_amended_witness :
    (failStep initBackoff).1 ≤ (failStep (failStep initBackoff).2).1 :=
  (C3_backoff_amended initBackoff).2.1 (by decide)

/-- The code's ascending sort (`insertionSort`) agrees with the
specification-side `mergeSort`, so both compute the same three lowest
readings. -/
theorem ambientEstimate_eq_meanOfThreeLowest (hist : List ℚ) :
    ambientEstimate hist = meanOfThreeLowest hist := by
  unfold ambientEstimate meanOfThreeLowest
  rw [List.mergeSort_eq_insertionSort]

/-- C4 (counterexample): the claim that the adaptive threshold equals
`max(min_floor, 1.5 × ambient)` is false on the code. With a rolling window of
ten probe readings all equal to 0.02, the ambient estimate is 0.02 and the
claimed formula gives 0.03, but the code additionally clamps by
`SILENCE_RMS_MAX = 0.015` and stores 0.015 ≠ 0.03. -/
theorem C4_threshold_counterexample :
    (probeStep ⟨List.replicate 9 (1/50), 3/1000, 5/1000⟩ (1/50)).adaptive = 15/1000 ∧
    max SILENCE_RMS_MIN
      (meanOfThreeLowest (pushRolling (List.replicate 9 (1/50)) (1/50)) * (3/2)) = 3/100 ∧
    ((15 : ℚ)/1000) ≠ 3/100 := by
  refine ⟨?_, ?_, by norm_num⟩
  · norm_num [probeStep, pushRolling, ambientEstimate, List.insertionSort, List.orderedInsert,
      SILENCE_RMS_MIN, SILENCE_RMS_MAX, List.replicate]
  · rw [← ambientEstimate_eq_meanOfThreeLowest]
    norm_num [pushRolling, ambientEstimate, List.insertionSort, List.orderedInsert,
      SILENCE_RMS_MIN, List.replicate]

/-- C4 (amended): after every loudness probe the adaptive threshold equals
`min(SILENCE_RMS_MAX, max(SILENCE_RMS_MIN, 1.5 × ambient))`, where the ambient
estimate is the mean of the three lowest RMS readings of the rolling window
(the sum of the three lowest divided by three — with fewer than three readings
the code still divides by three); the window never exceeds the last 10
probes. -/
theorem C4_threshold_amended (st : VadState) (r : ℚ) (hlen : st.recentRMS.length ≤ 10) :
    (probeStep st r).adaptive =
      min SILENCE_RMS_MAX
        (max SILENCE_RMS_MIN (meanOfThreeLowest (pushRolling st.recentRMS r) * (3/2))) ∧
    (probeStep st r).ambientNoiseLevel = meanOfThreeLowest (pushRolling st.recentRMS r) ∧
    (probeStep st r).recentRMS.length ≤ 10 := by
  refine ⟨?_, ?_, ?_⟩
  · unfold probeStep
    dsimp only
    rw [ambientEstimate_eq_meanOfThreeLowest]
  · unfold probeStep
    dsimp only
    rw [ambientEstimate_eq_meanOfThreeLowest]
  · unfold probeStep pushRolling
    dsimp only
    split
    · simp only [List.length_drop, List.length_append, List.length_cons, List.length_nil]
      omega
    · rename_i h
      simp only [List.length_append, List.length_cons, List.length_nil] at h ⊢
      omega

/-- C4 (witness): instantiation of the amended threshold theorem at an empty
window receiving its first probe reading. -/
theorem C4_threshold_amended_witness :
    (probeStep ⟨[], 3/1000, 5/1000⟩ 0).adaptive =
      min SILENCE_RMS_MAX
        (max SILENCE_RMS_MIN (meanOfThreeLowest (pushRolling [] 0) * (3/2))) :=
  (C4_threshold_amended ⟨[], 3/1000, 5/1000⟩ 0 (by decide)).1

/-- C5 (counterexample): the claim that a fuse request is issued only when the
buffer reports detections for both modalities is false on the code: when the
`/fusion/buffer-stats` response is not ok (modelled by `stats = none`) the code
skips every buffer check and issues the fuse request anyway. -/
theorem C5_fuse_gating_counterexample :
    ¬ (∀ (g : Bool) (now lastCheck : ℤ) (stats : Option BufferStats),
        (performFusion g now lastCheck stats).fuseRequested = true →
        ∃ s, stats = some s ∧ s.has_both = true) := by
  intro h
  rcases h true 2000 0 none (by decide) with ⟨s, hs, _⟩
  exact Option.noConfusion hs

/-- C5 (amended): when the buffer-stats request succeeds, a fuse request is
issued only if the gate reads available, the debounce window has elapsed, the
buffer reports both modalities, and both latest ages pass the staleness test;
a busy gate, a missing modality, and a stale age each produce a silent skip
with no error; but a failed buffer-stats request lets the fuse request through
without buffer checks. -/
theorem C5_fuse_gating_amended (g : Bool) (now lastCheck : ℤ) (s : BufferStats)
    (stats : Option BufferStats) :
    ((performFusion g now lastCheck (some s)).fuseRequested = true →
      g = true ∧ 2000 ≤ now - lastCheck ∧ s.has_both = true ∧
      ageStale s.face_latest_age_ms = false ∧ ageStale s.audio_latest_age_ms = false) ∧
    (g = false →
      performFusion g now lastCheck stats =
        { statsRequested := false, fuseRequested := false, errorSet := false
          newLastCheck := lastCheck }) ∧
    (s.has_both = false →
      (performFusion g now lastCheck (some s)).fuseRequested = false ∧
      (performFusion g now lastCheck (some s)).errorSet = false) ∧
    ((ageStale s.face_latest_age_ms = true ∨ ageStale s.audio_latest_age_ms = true) →
      (performFusion g now lastCheck (some s)).fuseRequested = false ∧
      (performFusion g now lastCheck (some s)).errorSet = false) := by
  refine ⟨?_, ?_, ?_, ?_⟩
  · intro hf
    by_cases hg : g = false
    · simp [performFusion, hg] at hf
    · by_cases hd : now - lastCheck < 2000
      · simp [performFusion, hg, hd] at hf
      · by_cases hb : s.has_both = false
        · simp [performFusion, hg, hd, hb] at hf
        · by_cases hsf : ageStale s.face_latest_age_ms
          · simp [performFusion, hg, hd, hb, hsf] at hf
          · by_cases hsa : ageStale s.audio_latest_age_ms
            · simp [performFusion, hg, hd, hb, hsa] at hf
            · exact ⟨by simpa using hg, by omega, by simpa using hb,
                by simpa using hsf, by simpa using hsa⟩
  · intro hg
    simp [performFusion, hg]
  · intro hb
    by_cases hg : g = false
    · simp [performFusion, hg]
    · by_cases hd : now - lastCheck < 2000
      · simp [performFusion, hg, hd]
      · simp [performFusion, hg, hd, hb]
  · intro hstale
    by_cases hg : g = false
    · simp [performFusion, hg]
    · by_cases hd : now - lastCheck < 2000
      · simp [performFusion, hg, hd]
      · by_cases hb : s.has_both = false
        · simp [performFusion, hg, hd, hb]
        · rcases hstale with hsf | hsa
          · simp [performFusion, hg, hd, hb, hsf]
          · simp [performFusion, hg, hd, hb, hsa]

/-- C5 (witness): a busy gate makes the fusion attempt a silent skip that
issues no request, on a concrete attempt with fresh two-modality stats. -/
theorem C5_fuse_gating_amended_witness :
    performFusion false 5000 0 (some ⟨true, 1, 1, 500, 500⟩) =
      { statsRequested := false, fuseRequested := false, errorSet := false
        newLastCheck := 0 } :=
  (C5_fuse_gating_amended false 5000 0 ⟨true, 1, 1, 500, 500⟩
    (some ⟨true, 1, 1, 500, 500⟩)).2.1 rfl

/-- C6 (counterexample): the claim that normalization lands in the
specification's closed set `{happy, sad, angry, surprise, fear, disgust,
neutral}` is false: the code maps `"angry"` to `"anger"`, which is not a
member of that set. -/
theorem C6_normalize_counterexample :
    normalizeEmotion "angry" = "anger" ∧ "anger" ∉ specEmotionLabels := by
  decide

/-- C6 (amended): for every input string, `normalizeEmotion` returns a member
of the code's closed label set `{happy, anger, sad, surprise, disgust, fear,
neutral}` (the specification set with `angry` replaced by `anger`), and the
empty/null label maps to `neutral`. -/
theorem C6_normalize_amended :
    (∀ label : String, normalizeEmotion label ∈ codeEmotionLabels) ∧
    normalizeEmotion "" = "neutral" := by
  refine ⟨?_, rfl⟩
  intro label
  have hmem : ∀ (c : Prop) (inst : Decidable c) (a b : String),
      a ∈ codeEmotionLabels → b ∈ codeEmotionLabels →
      (if c then a else b) ∈ codeEmotionLabels := by
    intro c inst a b ha hb
    split <;> assumption
  unfold normalizeEmotion
  dsimp only
  repeat' apply hmem
  all_goals simp [codeEmotionLabels]

/-- C7 (counterexample): the claim that a cycle with zero usable frames emits
no classification result is false on the code: `captureWindow` aggregates and
publishes unconditionally, so the zero-frame cycle still emits a state
update. -/
theorem C7_zero_frames_counterexample :
    windowPublish [] ≠ none := by
  simp [windowPublish]

/-- C7 (amended): a cycle whose analysis yields zero usable frames is not
treated as an error (the error field stays clear), but it does emit a
classification result: the empty-aggregate update with label `neutral`,
confidence 0 and frame count 0; since no frame was classified, no per-frame
detection was produced server-side. -/
theorem C7_zero_frames_amended :
    windowPublish [] =
      some { ready := true, error := none, label := "neutral"
             score := 0, frameCount := 0 } := by
  rfl

/-- C8: a poll tick arriving less than 2000 ms after the previous recorded
buffer check is skipped: it issues neither a buffer-stats request nor a fuse
request, and leaves the recorded check time unchanged. -/
theorem C8_poll_debounce (g : Bool) (now lastCheck : ℤ) (stats : Option BufferStats)
    (h : now - lastCheck < 2000) :
    (performFusion g now lastCheck stats).statsRequested = false ∧
    (performFusion g now lastCheck stats).fuseRequested = false ∧
    (performFusion g now lastCheck stats).newLastCheck = lastCheck := by
  by_cases hg : g = false
  · simp [performFusion, hg]
  · simp [performFusion, hg, h]

/-- C8 (witness): a tick 1000 ms after the previous check issues no
buffer-stats request. -/
theorem C8_poll_debounce_witness :
    (performFusion true 1000 0 none).statsRequested = false :=
  (C8_poll_debounce true 1000 0 none (by decide)).1

/-- C9: when the availability gate reads busy, the visual scheduler skips the
capture cycle and retries `captureWindow` after a fixed 2000 ms, and the audio
scheduler performs no recording and no classification and re-schedules its
loop after `1.5 ×` its base interval (emitting only the synthetic neutral
fallback). -/
theorem C9_busy_gate_skips (r ra : PepperStatusResult) (ms : ℚ) (s : BackoffState)
    (hface : isPepperAvailable r = false)
    (haudio : isPepperAvailableForAudio ra = false) :
    faceGateBranch (isPepperAvailable r) = .skipRetry 2000 ∧
    audioGateBranch (isPepperAvailableForAudio ra) ms s =
      some { capturedAudio := false, classified := false
             emitted := some ("neutral", 1/2)
             nextDelayMs := ms * (3/2), backoffAfter := initBackoff } := by
  rw [hface, haudio]
  exact ⟨rfl, rfl⟩

/-- C9 (witness): with a status response reporting `proce = 0`, the face
scheduler's busy branch retries after exactly 2000 ms. -/
theorem C9_busy_gate_skips_witness :
    faceGateBranch (isPepperAvailable (.response true (some (some 0)))) = .skipRetry 2000 :=
  (C9_busy_gate_skips (.response true (some (some 0))) (.response true (some (some 0)))
    8000 initBackoff (by decide) (by decide)).1

/-- C10: the availability gate client fails open — on a network error or any
non-OK HTTP response, both `isPepperAvailable` and `isPepperAvailableForAudio`
return `true`, so the schedulers and fusion polling proceed as if the
actuator were available. -/
theorem C10_gate_fails_open (r : PepperStatusResult)
    (h : r = .networkError ∨ ∃ body, r = .response false body) :
    isPepperAvailable r = true ∧ isPepperAvailableForAudio r = true := by
  rcases h with h | ⟨body, h⟩ <;> subst h <;> exact ⟨rfl, rfl⟩

/-- C10 (witness): instantiation at a network error. -/
theorem C10_gate_fails_open_witness :
    isPepperAvailable .networkError = true ∧
    isPepperAvailableForAudio .networkError = true :=
  C10_gate_fails_open .networkError (Or.inl rfl)

end VirtualAvatar
